import Mathlib

/-!
prnet-infer: render synchronisation (`src/ui.cc`) and face-data loading (`src/face-data.cc`).

A shallow embedding of

* `example::RenderConfig` (`src/gui/render-config.h`),
* the globals of `src/ui.cc` and the functions `RequestRender`, `RenderThread`,
  `HandleUserInput` and the view reset of `RunUI`,
* `JoinPath` / `LoadFaceData` of `src/face-data.cc`.

Conventions.

* `float` / `double` values are elements of an arbitrary type `F`; the arithmetic on them, the
  literals, the `int(..)` truncation and the trackball library (`gui/trackball.h`) are the fields
  of an `Externals F` record that every definition takes as a parameter.
* `int` values are `Int`; `pass++` is `wrapInt32 (pass + 1)`.
* The external renderer `gRenderer.Render(&gRenderBuffer, gCurrQuat, gRenderConfig)` is an
  arbitrary function `RenderFn F` from the three arguments to the returned `bool` and the new
  contents of the buffer.
* A block guarded by `std::lock_guard<std::mutex> guard(gMutex)` and an access to one of the
  `std::atomic<bool>` flags is one atomic step of the interleaving model (`step`); every
  other statement that touches shared data is one atomic step of its own.
-/

namespace prnet

/-! ## Data model -/

/-- A `float[3]` array. -/
structure Vec3 (F : Type) where
  c0 : F
  c1 : F
  c2 : F
deriving DecidableEq, Repr

/-- A `float[4]` array (the trackball quaternions). -/
structure Quat (F : Type) where
  q0 : F
  q1 : F
  q2 : F
  q3 : F
deriving DecidableEq, Repr

/-- Read `v[i]`. -/
def Vec3.get {F : Type} (v : Vec3 F) (i : Fin 3) : F :=
  match i with
  | 0 => v.c0
  | 1 => v.c1
  | 2 => v.c2

/-- Write `v[i] = x`. -/
def Vec3.set {F : Type} (v : Vec3 F) (i : Fin 3) (x : F) : Vec3 F :=
  match i with
  | 0 => { v with c0 := x }
  | 1 => { v with c1 := x }
  | 2 => { v with c2 := x }

/-- The struct `example::RenderConfig` of `gui/render-config.h`, field by field. -/
structure RenderConfig (F : Type) where
  width : Int
  height : Int
  eye : Vec3 F
  up : Vec3 F
  look_at : Vec3 F
  fov : F
  pass : Int
  max_passes : Int
  scene_scale : F
deriving DecidableEq, Repr

/-- The channels of `example::RenderBuffer` that `Display` reads (`gui/render-buffer.h`). -/
structure RenderBuffer (F : Type) where
  rgba : List F
  normal : List F
  position : List F
  depth : List F
  texcoords : List F
deriving DecidableEq, Repr

/-- The floating-point operations, literals and the trackball library used by `ui.cc`.
`lit m d` is the decimal literal `m / 10^d` (`0.005` is `lit 5 3`), `toInt` is the conversion
`int(x)`, `ofInt` is `static_cast<double>(n)`. -/
structure Externals (F : Type) where
  add : F → F → F
  sub : F → F → F
  mul : F → F → F
  div : F → F → F
  lit : Nat → Nat → F
  toInt : F → Int
  ofInt : Int → F
  trackball : F → F → F → F → Quat F
  add_quats : Quat F → Quat F → Quat F

/-- The mutable globals of `ui.cc` shared by the UI thread and the render thread. -/
structure Globals (F : Type) where
  gRenderBuffer : RenderBuffer F
  gCurrQuat : Quat F
  gPrevQuat : Quat F
  gRenderQuit : Bool
  gRenderRefresh : Bool
  gRenderConfig : RenderConfig F
deriving DecidableEq, Repr

/-- The external `example::Renderer::Render`: from the buffer, the orientation and the
configuration it is handed, the returned `bool` and the buffer contents it leaves. -/
abbrev RenderFn (F : Type) : Type :=
  RenderBuffer F → Quat F → RenderConfig F → Bool × RenderBuffer F

/-- Two's-complement wrap of an `int` result. -/
def wrapInt32 (x : Int) : Int :=
  (x + 2147483648) % 4294967296 - 2147483648

/-! ## `RequestRender` and the render thread, run without interleaving -/

/-- The guarded block of `RequestRender`: `gRenderConfig.pass = 0` under `gMutex`. -/
def resetPass {F : Type} (g : Globals F) : Globals F :=
  { g with gRenderConfig := { g.gRenderConfig with pass := 0 } }

/-- The statement `gRenderRefresh = true` of `RequestRender`. -/
def setRefresh {F : Type} (g : Globals F) : Globals F :=
  { g with gRenderRefresh := true }

/-- `RequestRender()` (ui.cc:43-50). -/
def RequestRender {F : Type} (g : Globals F) : Globals F :=
  setRefresh (resetPass g)

/-- What one trip through the body of `while (1)` in `RenderThread` did. -/
inductive IterOutcome (F : Type) where
  /-- `gRenderQuit` was set: `return`. -/
  | quit
  /-- The idle branch: `sleep_for(100ms); continue`. -/
  | slept
  /-- `Render` was called on the recorded arguments and returned `ret`. -/
  | rendered (buffer : RenderBuffer F) (quat : Quat F) (config : RenderConfig F) (ret : Bool)
deriving DecidableEq, Repr

/-- Whether the outcome is a call of the renderer. -/
def IterOutcome.isRender {F : Type} : IterOutcome F → Bool
  | .rendered _ _ _ _ => true
  | _ => false

/-- The block before the loop of `RenderThread` (ui.cc:54-57): `pass = 0` under `gMutex`. -/
def RenderThreadInit {F : Type} (g : Globals F) : Globals F :=
  resetPass g

/-- One trip through the body of `while (1)` in `RenderThread` (ui.cc:59-100), with no step of
the UI thread in between. -/
def RenderThreadIter {F : Type} (Render : RenderFn F) (g : Globals F) :
    IterOutcome F × Globals F :=
  if g.gRenderQuit then
    (.quit, g)
  else if !g.gRenderRefresh || decide (g.gRenderConfig.pass ≥ g.gRenderConfig.max_passes) then
    (.slept, g)
  else
    -- `initial_pass` is computed under the lock and never read afterwards
    let _initial_pass : Bool := decide (g.gRenderConfig.pass = 0)
    let r := Render g.gRenderBuffer g.gCurrQuat g.gRenderConfig
    let g1 : Globals F := { g with gRenderBuffer := r.2 }
    let g2 : Globals F :=
      if r.1 then
        { g1 with gRenderConfig :=
            { g1.gRenderConfig with pass := wrapInt32 (g1.gRenderConfig.pass + 1) } }
      else g1
    (.rendered g.gRenderBuffer g.gCurrQuat g.gRenderConfig r.1,
      { g2 with gRenderRefresh := false })

/-- The loop of `RenderThread`, run for at most `fuel` trips: the outcomes in order and the
globals it leaves. The run ends at the first `quit` outcome. -/
def RenderThreadLoop {F : Type} (Render : RenderFn F) : Nat → Globals F →
    List (IterOutcome F) × Globals F
  | 0, g => ([], g)
  | fuel + 1, g =>
    match RenderThreadIter Render g with
    | (.quit, g1) => ([.quit], g1)
    | (o, g1) =>
      let rest := RenderThreadLoop Render fuel g1
      (o :: rest.1, rest.2)

/-- The number of renderer calls in a list of outcomes. -/
def renderCalls {F : Type} (os : List (IterOutcome F)) : Nat :=
  (os.filter IterOutcome.isRender).length

/-- The values of `gRenderConfig.pass` after each trip of the loop, in order. -/
def passTrace {F : Type} (Render : RenderFn F) : Nat → Globals F → List Int
  | 0, _ => []
  | fuel + 1, g =>
    match RenderThreadIter Render g with
    | (.quit, _) => []
    | (_, g1) => g1.gRenderConfig.pass :: passTrace Render fuel g1

/-! ## The UI thread: `HandleUserInput` and the view reset of `RunUI` -/

/-- What `HandleUserInput` reads from GLFW / ImGui: the cursor position, the window size, the
left mouse button and the `T` and `Z` keys. -/
structure UserInput (F : Type) where
  mouse_x : F
  mouse_y : F
  window_width : Int
  window_height : Int
  mouseDown : Bool
  keyT : Bool
  keyZ : Bool

/-- The early-return test of `HandleUserInput` (ui.cc:182-185): the cursor did not move by a
whole pixel. -/
def mouseUnmoved {F : Type} (X : Externals F) (inp : UserInput F) (prev_mouse_x prev_mouse_y : F) :
    Bool :=
  decide (X.toInt inp.mouse_x = X.toInt prev_mouse_x) &&
    decide (X.toInt inp.mouse_y = X.toInt prev_mouse_y)

/-- `HandleUserInput(window, &prev_mouse_x, &prev_mouse_y)` (ui.cc:176-233): the globals and the
two `double`s behind the pointers after the call. -/
def HandleUserInput {F : Type} (X : Externals F) (inp : UserInput F)
    (g : Globals F) (prev_mouse_x prev_mouse_y : F) : Globals F × F × F :=
  if mouseUnmoved X inp prev_mouse_x prev_mouse_y then
    (g, prev_mouse_x, prev_mouse_y)
  else
    let width := X.ofInt inp.window_width
    let height := X.ofInt inp.window_height
    let kTransScale := X.lit 5 3
    let kZoomScale := X.lit 75 3
    let dx := X.sub inp.mouse_x prev_mouse_x
    let dy := X.sub inp.mouse_y prev_mouse_y
    let g1 : Globals F :=
      if inp.mouseDown then
        if inp.keyT then
          let c := g.gRenderConfig
          let c1 := { c with eye := c.eye.set 0 (X.sub (c.eye.get 0) (X.mul kTransScale dx)) }
          let c2 := { c1 with eye := c1.eye.set 1 (X.sub (c1.eye.get 1) (X.mul kTransScale dy)) }
          let c3 := { c2 with
            look_at := c2.look_at.set 0 (X.sub (c2.look_at.get 0) (X.mul kTransScale dx)) }
          let c4 := { c3 with
            look_at := c3.look_at.set 1 (X.sub (c3.look_at.get 1) (X.mul kTransScale dy)) }
          RequestRender { g with gRenderConfig := c4 }
        else if inp.keyZ then
          let c := g.gRenderConfig
          let c1 := { c with eye := c.eye.set 2 (X.add (c.eye.get 2) (X.mul kZoomScale dy)) }
          let c2 := { c1 with
            look_at := c1.look_at.set 2 (X.add (c1.look_at.get 2) (X.mul kZoomScale dy)) }
          RequestRender { g with gRenderConfig := c2 }
        else
          let two := X.lit 2 0
          let prev := X.trackball
            (X.div (X.sub (X.mul two prev_mouse_x) width) width)
            (X.div (X.sub height (X.mul two prev_mouse_y)) height)
            (X.div (X.sub (X.mul two inp.mouse_x) width) width)
            (X.div (X.sub height (X.mul two inp.mouse_y)) height)
          let ga : Globals F := { g with gPrevQuat := prev }
          let gb : Globals F := { ga with gCurrQuat := X.add_quats ga.gPrevQuat ga.gCurrQuat }
          RequestRender gb
      else g
    (g1, inp.mouse_x, inp.mouse_y)

/-- The space-key block of the main loop of `RunUI` (ui.cc:309-322). -/
def ResetView {F : Type} (X : Externals F) (g : Globals F) : Globals F :=
  let z := X.lit 0 0
  let ga : Globals F := { g with gCurrQuat := X.trackball z z z z }
  let c := ga.gRenderConfig
  let c1 := { c with eye := ((c.eye.set 0 (X.lit 5 1)).set 1 (X.lit 5 1)).set 2 (X.lit 25 1) }
  let c2 := { c1 with look_at := ((c1.look_at.set 0 z).set 1 z).set 2 z }
  let c3 := { c2 with up := ((c2.up.set 0 z).set 1 (X.lit 1 0)).set 2 z }
  RequestRender { ga with gRenderConfig := c3 }

/-- The statements of the UI thread that write shared data. -/
inductive CtlStmt (F : Type) where
  /-- `gRenderConfig.eye[i] -= d`. -/
  | eyeSub (i : Fin 3) (d : F)
  /-- `gRenderConfig.eye[i] += d`. -/
  | eyeAdd (i : Fin 3) (d : F)
  /-- `gRenderConfig.look_at[i] -= d`. -/
  | lookAtSub (i : Fin 3) (d : F)
  /-- `gRenderConfig.look_at[i] += d`. -/
  | lookAtAdd (i : Fin 3) (d : F)
  /-- `gRenderConfig.eye[i] = v`. -/
  | eyeSet (i : Fin 3) (v : F)
  /-- `gRenderConfig.look_at[i] = v`. -/
  | lookAtSet (i : Fin 3) (v : F)
  /-- `gRenderConfig.up[i] = v`. -/
  | upSet (i : Fin 3) (v : F)
  /-- `trackball(gPrevQuat, a, b, c, d)`. -/
  | trackballPrev (a b c d : F)
  /-- `trackball(gCurrQuat, a, b, c, d)`. -/
  | trackballCurr (a b c d : F)
  /-- `add_quats(gPrevQuat, gCurrQuat, gCurrQuat)`. -/
  | addQuats
  /-- The guarded block of `RequestRender`: `pass = 0` under `gMutex`. -/
  | passReset
  /-- `gRenderRefresh = true`. -/
  | refreshSet
  /-- `gRenderQuit = true` (ui.cc:349). -/
  | quitSet
deriving DecidableEq, Repr

/-- The effect of one statement of the UI thread on the globals. -/
def CtlStmt.exec {F : Type} (X : Externals F) (g : Globals F) : CtlStmt F → Globals F
  | .eyeSub i d =>
    { g with gRenderConfig := { g.gRenderConfig with
        eye := g.gRenderConfig.eye.set i (X.sub (g.gRenderConfig.eye.get i) d) } }
  | .eyeAdd i d =>
    { g with gRenderConfig := { g.gRenderConfig with
        eye := g.gRenderConfig.eye.set i (X.add (g.gRenderConfig.eye.get i) d) } }
  | .lookAtSub i d =>
    { g with gRenderConfig := { g.gRenderConfig with
        look_at := g.gRenderConfig.look_at.set i (X.sub (g.gRenderConfig.look_at.get i) d) } }
  | .lookAtAdd i d =>
    { g with gRenderConfig := { g.gRenderConfig with
        look_at := g.gRenderConfig.look_at.set i (X.add (g.gRenderConfig.look_at.get i) d) } }
  | .eyeSet i v =>
    { g with gRenderConfig := { g.gRenderConfig with eye := g.gRenderConfig.eye.set i v } }
  | .lookAtSet i v =>
    { g with gRenderConfig := { g.gRenderConfig with
        look_at := g.gRenderConfig.look_at.set i v } }
  | .upSet i v =>
    { g with gRenderConfig := { g.gRenderConfig with up := g.gRenderConfig.up.set i v } }
  | .trackballPrev a b c d => { g with gPrevQuat := X.trackball a b c d }
  | .trackballCurr a b c d => { g with gCurrQuat := X.trackball a b c d }
  | .addQuats => { g with gCurrQuat := X.add_quats g.gPrevQuat g.gCurrQuat }
  | .passReset => resetPass g
  | .refreshSet => setRefresh g
  | .quitSet => { g with gRenderQuit := true }

/-- The two statements of `RequestRender()`, in program order. -/
def RequestRenderStmts (F : Type) : List (CtlStmt F) :=
  [.passReset, .refreshSet]

/-- The shared-data statements that `HandleUserInput` executes, in program order. -/
def HandleUserInputStmts {F : Type} (X : Externals F) (inp : UserInput F)
    (prev_mouse_x prev_mouse_y : F) : List (CtlStmt F) :=
  if mouseUnmoved X inp prev_mouse_x prev_mouse_y then []
  else
    let width := X.ofInt inp.window_width
    let height := X.ofInt inp.window_height
    let kTransScale := X.lit 5 3
    let kZoomScale := X.lit 75 3
    let dx := X.sub inp.mouse_x prev_mouse_x
    let dy := X.sub inp.mouse_y prev_mouse_y
    if inp.mouseDown then
      if inp.keyT then
        [.eyeSub 0 (X.mul kTransScale dx), .eyeSub 1 (X.mul kTransScale dy),
         .lookAtSub 0 (X.mul kTransScale dx), .lookAtSub 1 (X.mul kTransScale dy)]
          ++ RequestRenderStmts F
      else if inp.keyZ then
        [.eyeAdd 2 (X.mul kZoomScale dy), .lookAtAdd 2 (X.mul kZoomScale dy)]
          ++ RequestRenderStmts F
      else
        let two := X.lit 2 0
        [.trackballPrev
            (X.div (X.sub (X.mul two prev_mouse_x) width) width)
            (X.div (X.sub height (X.mul two prev_mouse_y)) height)
            (X.div (X.sub (X.mul two inp.mouse_x) width) width)
            (X.div (X.sub height (X.mul two inp.mouse_y)) height),
         .addQuats] ++ RequestRenderStmts F
    else []

/-- The shared-data statements of the space-key block of `RunUI`, in program order. -/
def ResetViewStmts {F : Type} (X : Externals F) : List (CtlStmt F) :=
  let z := X.lit 0 0
  [.trackballCurr z z z z,
   .eyeSet 0 (X.lit 5 1), .eyeSet 1 (X.lit 5 1), .eyeSet 2 (X.lit 25 1),
   .lookAtSet 0 z, .lookAtSet 1 z, .lookAtSet 2 z,
   .upSet 0 z, .upSet 1 (X.lit 1 0), .upSet 2 z] ++ RequestRenderStmts F

/-- Run a list of UI-thread statements with no step of the render thread in between. -/
def execStmts {F : Type} (X : Externals F) (g : Globals F) (ss : List (CtlStmt F)) : Globals F :=
  ss.foldl (CtlStmt.exec X) g

/-! ## The two threads interleaved -/

/-- Where the render thread stands in `RenderThread`. -/
inductive WorkerPc where
  /-- Before the guarded block ui.cc:54-57. -/
  | init
  /-- At `if (gRenderQuit)`, ui.cc:60. -/
  | quitCheck
  /-- At the load of `gRenderRefresh` in the condition of ui.cc:65. -/
  | refreshCheck
  /-- At the unguarded read `pass >= max_passes` in the condition of ui.cc:65. -/
  | passCheck
  /-- At `sleep_for`, ui.cc:67. -/
  | sleep
  /-- At the guarded block that computes `initial_pass`, ui.cc:75-80. -/
  | initialPass
  /-- At the call of `gRenderer.Render`, ui.cc:84-85. -/
  | render
  /-- At `if (ret) { lock; pass++ }`, ui.cc:87-91, with the value of `ret`. -/
  | incr (ret : Bool)
  /-- At `gRenderRefresh = false`, ui.cc:97. -/
  | clear
  /-- After `return`, ui.cc:62. -/
  | done
deriving DecidableEq, Repr

/-- The arguments one call of `Render` was handed. -/
structure RenderCall (F : Type) where
  buffer : RenderBuffer F
  quat : Quat F
  config : RenderConfig F
deriving DecidableEq, Repr

/-- A state of the two-thread system: the globals, the position of the render thread, and two
history variables (the arguments of every `Render` call so far, latest first, and the number of
`sleep_for` calls so far). -/
structure MState (F : Type) where
  g : Globals F
  pc : WorkerPc
  calls : List (RenderCall F)
  sleeps : Nat
deriving DecidableEq, Repr

/-- One atomic step of the render thread. `Render` is the behaviour of the renderer should this
step be the call. -/
def workerStep {F : Type} (Render : RenderFn F) (s : MState F) : MState F :=
  match s.pc with
  | .init => { s with g := resetPass s.g, pc := .quitCheck }
  | .quitCheck =>
    if s.g.gRenderQuit then { s with pc := .done } else { s with pc := .refreshCheck }
  | .refreshCheck =>
    if !s.g.gRenderRefresh then { s with pc := .sleep } else { s with pc := .passCheck }
  | .passCheck =>
    if decide (s.g.gRenderConfig.pass ≥ s.g.gRenderConfig.max_passes) then { s with pc := .sleep }
    else { s with pc := .initialPass }
  | .sleep => { s with pc := .quitCheck, sleeps := s.sleeps + 1 }
  | .initialPass => { s with pc := .render }
  | .render =>
    let r := Render s.g.gRenderBuffer s.g.gCurrQuat s.g.gRenderConfig
    { s with
      g := { s.g with gRenderBuffer := r.2 }
      pc := .incr r.1
      calls := ⟨s.g.gRenderBuffer, s.g.gCurrQuat, s.g.gRenderConfig⟩ :: s.calls }
  | .incr ret =>
    if ret then
      { s with
        g := { s.g with gRenderConfig :=
          { s.g.gRenderConfig with pass := wrapInt32 (s.g.gRenderConfig.pass + 1) } }
        pc := .clear }
    else { s with pc := .clear }
  | .clear => { s with g := { s.g with gRenderRefresh := false }, pc := .quitCheck }
  | .done => s

/-- A step of the system: one atomic step of the render thread, or one statement of the UI
thread. -/
inductive Event (F : Type) where
  | worker (Render : RenderFn F)
  | ui (stmt : CtlStmt F)

/-- The effect of one step. -/
def step {F : Type} (X : Externals F) (s : MState F) : Event F → MState F
  | .worker Render => workerStep Render s
  | .ui stmt => { s with g := stmt.exec X s.g }

/-- The effect of a schedule, a list of steps taken in order. -/
def run {F : Type} (X : Externals F) (s : MState F) (es : List (Event F)) : MState F :=
  es.foldl (step X) s

/-- The state when `RunUI` launches the render thread (ui.cc:288-289): `gRenderQuit` false, the
render thread before its first statement, no call and no sleep yet. -/
def launch {F : Type} (g : Globals F) : MState F :=
  { g := { g with gRenderQuit := false }, pc := .init, calls := [], sleeps := 0 }

/-- A schedule of `k` consecutive steps of the render thread. -/
def workerOnly {F : Type} (Render : RenderFn F) (k : Nat) : List (Event F) :=
  List.replicate k (.worker Render)

/-- The UI thread runs the statements `ss` with no step of the render thread in between. -/
def uiRuns {F : Type} (ss : List (CtlStmt F)) : List (Event F) :=
  ss.map Event.ui

/-- The statements the UI thread executes in a schedule, in order. -/
def uiProgram {F : Type} : List (Event F) → List (CtlStmt F)
  | [] => []
  | .worker _ :: es => uiProgram es
  | .ui stmt :: es => stmt :: uiProgram es

/-! ## `src/face-data.cc` -/

/-- The three vectors of `FaceData` that `LoadFaceData` fills (`face-data.h`). -/
structure FaceData where
  face_indices : List Int
  triangles : List Int
  uv_kpt_indices : List Int
deriving DecidableEq, Repr

/-- How a call of `LoadFaceData` ended: it returned a `bool`, or `std::stof` threw. -/
inductive LoadResult where
  | returned (b : Bool)
  | threw
deriving DecidableEq, Repr

/-- `JoinPath(dir, filename)` (face-data.cc:11-23). -/
def JoinPath (dir filename : List Char) : List Char :=
  if dir.isEmpty then filename
  else if dir.getLast? ≠ some (Char.ofNat 47) then dir ++ [Char.ofNat 47] ++ filename
  else dir ++ filename

/-- The successive results of `std::getline(ifs, line)` on a stream holding the given characters:
`cur` holds the characters of the current line, latest first. -/
def getlinesAux (cur : List Char) : List Char → List (List Char)
  | [] => if cur.isEmpty then [] else [cur.reverse]
  | c :: rest =>
    if c = Char.ofNat 10 then cur.reverse :: getlinesAux [] rest
    else getlinesAux (c :: cur) rest

/-- The lines that `while (std::getline(ifs, line))` visits. -/
def getlines (content : List Char) : List (List Char) :=
  getlinesAux [] content

/-- The C-locale `isspace`: space, and `\t \n \v \f \r`. -/
def isspace (c : Char) : Bool :=
  decide (c.toNat = 32) || (decide (9 ≤ c.toNat) && decide (c.toNat ≤ 13))

/-- The successive results of `stream >> s` for a `std::string s`: `cur` holds the characters of
the current token, latest first. -/
def tokensAux (cur : List Char) : List Char → List (List Char)
  | [] => if cur.isEmpty then [] else [cur.reverse]
  | c :: rest =>
    if isspace c then
      if cur.isEmpty then tokensAux [] rest else cur.reverse :: tokensAux [] rest
    else tokensAux (c :: cur) rest

/-- The whitespace-separated tokens that repeated `stream >> s` extracts. -/
def tokens (content : List Char) : List (List Char) :=
  tokensAux [] content

/-- The loop face-data.cc:42-48 over the remaining lines: `acc` is `face_indices` so far. The
flag is `false` when `std::stof` threw. -/
def loadFaceIndices (stofInt : List Char → Option Int) :
    List (List Char) → List Int → Bool × List Int
  | [], acc => (true, acc)
  | line :: rest, acc =>
    match stofInt line with
    | none => (false, acc)
    | some idx => loadFaceIndices stofInt rest (acc ++ [idx])

/-- The loop face-data.cc:62-77 over the remaining lines: `acc` is `triangles` so far. A string
that `ss >> xs >> ys >> zs` could not fill stays empty. -/
def loadTriangles (stofInt : List Char → Option Int) :
    List (List Char) → List Int → Bool × List Int
  | [], acc => (true, acc)
  | line :: rest, acc =>
    let toks := tokens line
    let xs := toks.getD 0 []
    let ys := toks.getD 1 []
    let zs := toks.getD 2 []
    match stofInt xs with
    | none => (false, acc)
    | some v0 =>
      match stofInt ys with
      | none => (false, acc)
      | some v1 =>
        match stofInt zs with
        | none => (false, acc)
        | some v2 => loadTriangles stofInt rest (acc ++ [v0, v1, v2])

/-- The loop face-data.cc:90-94 over the remaining tokens: `acc` is `uv_kpt_indices` so far. -/
def loadUvKpt (stofInt : List Char → Option Int) :
    List (List Char) → List Int → Bool × List Int
  | [], acc => (true, acc)
  | s :: rest, acc =>
    match stofInt s with
    | none => (false, acc)
    | some val => loadUvKpt stofInt rest (acc ++ [val])

/-- `LoadFaceData(datapath, face_data)` (face-data.cc:27-103): how the call ended and what
`*face_data` holds afterwards. `fs` gives the contents of the file at a path (`none` when the
`ifstream` fails to open), `stofInt s` is `static_cast<int>(std::stof(s))` (`none` when
`std::stof` throws). -/
def LoadFaceData (stofInt : List Char → Option Int) (fs : List Char → Option (List Char))
    (datapath : List Char) (face_data : FaceData) : LoadResult × FaceData :=
  let fd0 : FaceData := { face_data with face_indices := [], triangles := [] }
  match fs (JoinPath datapath "face_ind.txt".toList) with
  | none => (.returned false, fd0)
  | some c1 =>
    match loadFaceIndices stofInt (getlines c1) fd0.face_indices with
    | (false, fi) => (.threw, { fd0 with face_indices := fi })
    | (true, fi) =>
      let fd1 : FaceData := { fd0 with face_indices := fi }
      match fs (JoinPath datapath "triangles.txt".toList) with
      | none => (.returned false, fd1)
      | some c2 =>
        match loadTriangles stofInt (getlines c2) fd1.triangles with
        | (false, tr) => (.threw, { fd1 with triangles := tr })
        | (true, tr) =>
          let fd2 : FaceData := { fd1 with triangles := tr }
          match fs (JoinPath datapath "uv_kpt_ind.txt".toList) with
          | none => (.returned false, fd2)
          | some c3 =>
            match loadUvKpt stofInt (tokens c3) fd2.uv_kpt_indices with
            | (false, uv) => (.threw, { fd2 with uv_kpt_indices := uv })
            | (true, uv) =>
              let fd3 : FaceData := { fd2 with uv_kpt_indices := uv }
              if fd3.uv_kpt_indices.length ≠ 2 * 68 then (.returned false, fd3)
              else (.returned true, fd3)

/-- A freshly constructed `FaceData`: three empty vectors. -/
def FaceData.empty : FaceData :=
  { face_indices := [], triangles := [], uv_kpt_indices := [] }

/-! ## Concrete data used by the examples -/

/-- Integer stand-ins for the floating-point externals: exact integer arithmetic, `lit m d` is
`m`, the trackball functions return fixed or component-wise results. -/
def intExternals : Externals Int where
  add := fun a b => a + b
  sub := fun a b => a - b
  mul := fun a b => a * b
  div := fun a b => a / b
  lit := fun m _ => (m : Int)
  toInt := fun a => a
  ofInt := fun n => n
  trackball := fun a b c d => ⟨a, b, c, d⟩
  add_quats := fun p q => ⟨p.q0 + q.q0, p.q1 + q.q1, p.q2 + q.q2, p.q3 + q.q3⟩

/-- A buffer of one pixel whose every channel holds `v`. -/
def constBuffer (v : Int) : RenderBuffer Int :=
  { rgba := [v, v, v, v], normal := [v, v, v, v], position := [v, v, v, v],
    depth := [v, v, v, v], texcoords := [v, v, v, v] }

/-- Globals of a session with `max_passes = n`, the camera of `RunUI`, a one-pixel buffer whose
channels hold `v`, `pass = p` and the refresh flag `r`. -/
def sampleGlobals (n p : Int) (r : Bool) (v : Int) : Globals Int :=
  { gRenderBuffer := constBuffer v
    gCurrQuat := ⟨0, 0, 0, 1⟩
    gPrevQuat := ⟨0, 0, 0, 1⟩
    gRenderQuit := false
    gRenderRefresh := r
    gRenderConfig :=
      { width := 1, height := 1, eye := ⟨5, 5, 25⟩, up := ⟨0, 1, 0⟩,
        look_at := ⟨0, 0, 0⟩, fov := 45, pass := p, max_passes := n, scene_scale := 1 } }

/-- A renderer that always succeeds and adds 1 to every sample of the buffer. -/
def okRender : RenderFn Int := fun b _ _ =>
  (true, { rgba := b.rgba.map (· + 1), normal := b.normal.map (· + 1),
           position := b.position.map (· + 1), depth := b.depth.map (· + 1),
           texcoords := b.texcoords.map (· + 1) })

/-- A renderer that always fails and leaves the buffer as it is. -/
def failRender : RenderFn Int := fun b _ _ => (false, b)

/-- A fresh session as `RunUI` sets it up (ui.cc:277-292) with `max_passes = n`: `gRenderQuit`
false, the render thread has run its initial block, `RequestRender()` was called once. -/
def freshSession {F : Type} (g : Globals F) (n : Int) : Globals F :=
  RequestRender (RenderThreadInit
    { g with gRenderQuit := false, gRenderConfig := { g.gRenderConfig with max_passes := n } })

/-- The buffer a trip of the loop handed to the renderer, if it called it. -/
def IterOutcome.handedBuffer {F : Type} : IterOutcome F → Option (RenderBuffer F)
  | .rendered b _ _ _ => some b
  | _ => none

/-- The render thread has passed the test `pass >= max_passes` of the current trip and has not
yet executed `pass++`. -/
def WorkerPc.owesIncrement : WorkerPc → Bool
  | .initialPass => true
  | .render => true
  | .incr _ => true
  | _ => false

/-- The invariant of the two-thread system for `max_passes = n`: `max_passes` is `n`,
`0 ≤ pass ≤ n`, and `pass < n` while the render thread stands between its test of `pass` and
`pass++`. -/
def passInvariant {F : Type} (n : Int) (s : MState F) : Prop :=
  s.g.gRenderConfig.max_passes = n ∧ 0 ≤ s.g.gRenderConfig.pass ∧
    s.g.gRenderConfig.pass ≤ n ∧
    (s.pc.owesIncrement = true → s.g.gRenderConfig.pass < n)

/-- The render thread is in the polling part of the loop: at the quit check, at the load of
`gRenderRefresh`, or at the sleep. -/
def WorkerPc.polling : WorkerPc → Bool
  | .quitCheck => true
  | .refreshCheck => true
  | .sleep => true
  | _ => false

/-- A schedule of a session with one render thread and `max_passes = 1`: the render thread runs
its initial block; `RunUI` calls `RequestRender()`; the render thread passes the quit check and
both halves of the pending-work test (a pass is started); the UI thread calls `RequestRender()`
again; the render thread runs the `initial_pass` block and the renderer call. -/
def lostRestartInFlight : List (Event Int) :=
  workerOnly okRender 1 ++ uiRuns (RequestRenderStmts Int) ++ workerOnly okRender 3 ++
    uiRuns (RequestRenderStmts Int) ++ workerOnly okRender 2

/-- The schedule `lostRestartInFlight` followed by the completion of the pass: `pass++` under
the lock and `gRenderRefresh = false`. -/
def lostRestartSchedule : List (Event Int) :=
  lostRestartInFlight ++ workerOnly okRender 2

/-- A first pan: `T` held, left button down, the cursor at (10, 20) coming from (0, 0). -/
def panA : UserInput Int :=
  ⟨10, 20, 640, 480, true, true, false⟩

/-- A second pan: `T` held, left button down, the cursor at (30, 60) coming from (10, 20). -/
def panB : UserInput Int :=
  ⟨30, 60, 640, 480, true, true, false⟩

/-- A schedule of a session with `max_passes = 1`: initial block of the render thread and first
`RequestRender()`; the UI thread handles `panA` completely; the render thread starts a pass and
stands at the renderer call; the UI thread executes the first statement of handling `panB`
(`eye[0] -= ..`); the render thread calls the renderer and completes the pass; the UI thread
executes the rest of handling `panB`. -/
def tornCameraSchedule : List (Event Int) :=
  workerOnly okRender 1 ++ uiRuns (RequestRenderStmts Int) ++
    uiRuns (HandleUserInputStmts intExternals panA 0 0) ++
    workerOnly okRender 4 ++
    uiRuns ((HandleUserInputStmts intExternals panB 10 20).take 1) ++
    workerOnly okRender 3 ++
    uiRuns ((HandleUserInputStmts intExternals panB 10 20).drop 1)

/-- The value of the leading decimal digits of `s`, continuing from `acc`. -/
def leadingDigits : List Char → Nat → Nat
  | [], acc => acc
  | c :: rest, acc => if c.isDigit then leadingDigits rest (10 * acc + (c.toNat - 48)) else acc

/-- A stand-in for `static_cast<int>(std::stof(s))` on unsigned integer text: the value of the
leading digits, and a throw when `s` does not start with a digit. -/
def sampleStofInt (s : List Char) : Option Int :=
  match s with
  | [] => none
  | c :: _ => if c.isDigit then some (leadingDigits s 0 : Nat) else none

/-- A data directory `data` with two face indices, one triangle and 2 * 68 landmark values. -/
def sampleFiles (path : List Char) : Option (List Char) :=
  if path = "data/face_ind.txt".toList then some "1\n2\n".toList
  else if path = "data/triangles.txt".toList then some "0 1 2\n".toList
  else if path = "data/uv_kpt_ind.txt".toList then some (List.replicate 136 "7\n".toList).flatten
  else none

theorem wrapInt32_of_range (x : Int) (h0 : -2147483648 ≤ x) (h1 : x ≤ 2147483647) :
    wrapInt32 x = x := by
  unfold wrapInt32
  omega

theorem RenderThreadIter_quit {F : Type} (Render : RenderFn F) (g : Globals F)
    (hq : g.gRenderQuit = true) : RenderThreadIter Render g = (.quit, g) := by
  simp [RenderThreadIter, hq]

theorem RenderThreadIter_idle {F : Type} (Render : RenderFn F) (g : Globals F)
    (hq : g.gRenderQuit = false)
    (h : g.gRenderRefresh = false ∨ g.gRenderConfig.max_passes ≤ g.gRenderConfig.pass) :
    RenderThreadIter Render g = (.slept, g) := by
  rcases h with h | h
  · simp [RenderThreadIter, hq, h]
  · simp [RenderThreadIter, hq, h]

theorem RenderThreadIter_render {F : Type} (Render : RenderFn F) (g : Globals F)
    (hq : g.gRenderQuit = false) (hr : g.gRenderRefresh = true)
    (hp : g.gRenderConfig.pass < g.gRenderConfig.max_passes) :
    RenderThreadIter Render g =
      (.rendered g.gRenderBuffer g.gCurrQuat g.gRenderConfig
          (Render g.gRenderBuffer g.gCurrQuat g.gRenderConfig).1,
        { g with
          gRenderBuffer := (Render g.gRenderBuffer g.gCurrQuat g.gRenderConfig).2
          gRenderRefresh := false
          gRenderConfig := { g.gRenderConfig with
            pass := if (Render g.gRenderBuffer g.gCurrQuat g.gRenderConfig).1 then
              wrapInt32 (g.gRenderConfig.pass + 1) else g.gRenderConfig.pass } }) := by
  have hp' : ¬ g.gRenderConfig.max_passes ≤ g.gRenderConfig.pass := not_le.mpr hp
  cases hret : (Render g.gRenderBuffer g.gCurrQuat g.gRenderConfig).1 <;>
    simp [RenderThreadIter, hq, hr, hp', hret]

theorem RenderThreadLoop_idle {F : Type} (Render : RenderFn F) (g : Globals F)
    (hq : g.gRenderQuit = false)
    (h : g.gRenderRefresh = false ∨ g.gRenderConfig.max_passes ≤ g.gRenderConfig.pass)
    (k : Nat) : RenderThreadLoop Render k g = (List.replicate k .slept, g) := by
  induction k with
  | zero => rfl
  | succ k ih =>
    simp [RenderThreadLoop, RenderThreadIter_idle Render g hq h, ih, List.replicate_succ]

theorem passTrace_idle {F : Type} (Render : RenderFn F) (g : Globals F)
    (hq : g.gRenderQuit = false)
    (h : g.gRenderRefresh = false ∨ g.gRenderConfig.max_passes ≤ g.gRenderConfig.pass)
    (k : Nat) : passTrace Render k g = List.replicate k g.gRenderConfig.pass := by
  induction k with
  | zero => rfl
  | succ k ih => simp [passTrace, RenderThreadIter_idle Render g hq h, ih, List.replicate_succ]

theorem renderCalls_replicate_slept {F : Type} (k : Nat) :
    renderCalls (List.replicate k (IterOutcome.slept : IterOutcome F)) = 0 := by
  induction k with
  | zero => rfl
  | succ k ih =>
    simp [renderCalls, List.replicate_succ, IterOutcome.isRender]

theorem freshSession_fields {F : Type} (g : Globals F) (n : Int) :
    (freshSession g n).gRenderQuit = false ∧ (freshSession g n).gRenderRefresh = true ∧
      (freshSession g n).gRenderConfig.pass = 0 ∧
      (freshSession g n).gRenderConfig.max_passes = n := by
  simp [freshSession, RequestRender, RenderThreadInit, resetPass, setRefresh]

/-- After the first trip of a fresh session with a succeeding renderer the loop is idle at
`pass = 1`. -/
theorem freshSession_first_trip {F : Type} (Render : RenderFn F) (g : Globals F) (n : Int)
    (hn : 1 ≤ n) (hok : ∀ b q c, (Render b q c).1 = true) :
    ∃ g1, RenderThreadIter Render (freshSession g n) =
        (.rendered (freshSession g n).gRenderBuffer (freshSession g n).gCurrQuat
          (freshSession g n).gRenderConfig true, g1) ∧
      g1.gRenderQuit = false ∧ g1.gRenderRefresh = false ∧ g1.gRenderConfig.pass = 1 ∧
      g1.gRenderConfig.max_passes = n := by
  obtain ⟨hq, hr, hp, hm⟩ := freshSession_fields g n
  have hlt : (freshSession g n).gRenderConfig.pass <
      (freshSession g n).gRenderConfig.max_passes := by
    rw [hp, hm]; omega
  rw [RenderThreadIter_render Render _ hq hr hlt]
  simp only [hok, if_true]
  refine ⟨_, rfl, ?_⟩
  simp [hq, hp, hm, wrapInt32]

/-! ## The interleaving model and the loop run alone -/

/-- One trip of the loop is what at most seven consecutive atomic steps of the render thread do
from the quit check: same globals, same renderer call, same sleep. -/
theorem RenderThreadIter_as_steps {F : Type} (X : Externals F) (Render : RenderFn F)
    (g : Globals F) (calls : List (RenderCall F)) (sleeps : Nat) :
    ∃ k, k ≤ 7 ∧
      run X ⟨g, .quitCheck, calls, sleeps⟩ (workerOnly Render k) =
        match (RenderThreadIter Render g).1 with
        | .quit => ⟨(RenderThreadIter Render g).2, .done, calls, sleeps⟩
        | .slept => ⟨(RenderThreadIter Render g).2, .quitCheck, calls, sleeps + 1⟩
        | .rendered b q c _ =>
          ⟨(RenderThreadIter Render g).2, .quitCheck, ⟨b, q, c⟩ :: calls, sleeps⟩ := by
  by_cases hq : g.gRenderQuit = true
  · exact ⟨1, by omega, by
      simp [RenderThreadIter, hq, run, workerOnly, step, workerStep]⟩
  · by_cases hr : g.gRenderRefresh = true
    · by_cases hp : g.gRenderConfig.max_passes ≤ g.gRenderConfig.pass
      · exact ⟨4, by omega, by
          simp [RenderThreadIter, hq, hr, hp, run, workerOnly, List.replicate, step, workerStep]⟩
      · refine ⟨7, by omega, ?_⟩
        cases hret : (Render g.gRenderBuffer g.gCurrQuat g.gRenderConfig).1 <;>
          simp [RenderThreadIter, hq, hr, hp, hret, run, workerOnly, List.replicate, step,
            workerStep]
    · exact ⟨3, by omega, by
        simp [RenderThreadIter, hq, hr, run, workerOnly, List.replicate, step, workerStep]⟩

/-- With `gRenderQuit` false and no refresh pending, a render thread in the polling part of the
loop never leaves it when it runs alone: the globals and the list of renderer calls stay as
they are. -/
theorem run_workerOnly_polling {F : Type} (X : Externals F) (Render : RenderFn F) (k : Nat) :
    ∀ s : MState F, s.g.gRenderQuit = false → s.g.gRenderRefresh = false →
      s.pc.polling = true →
      (run X s (workerOnly Render k)).g = s.g ∧
        (run X s (workerOnly Render k)).calls = s.calls ∧
        (run X s (workerOnly Render k)).pc.polling = true := by
  induction k with
  | zero => intro s _ _ hpc; exact ⟨rfl, rfl, hpc⟩
  | succ k ih =>
    intro s hq hr hpc
    have hstep : (workerStep Render s).g = s.g ∧ (workerStep Render s).calls = s.calls ∧
        (workerStep Render s).pc.polling = true := by
      cases hs : s.pc <;> simp [hs, WorkerPc.polling] at hpc <;>
        simp [workerStep, hs, hq, hr, WorkerPc.polling]
    have hrun : run X s (workerOnly Render (k + 1)) =
        run X (workerStep Render s) (workerOnly Render k) := by
      simp [run, workerOnly, List.replicate_succ, step]
    obtain ⟨hg, hc, hp⟩ := hstep
    have := ih (workerStep Render s) (by rw [hg]; exact hq) (by rw [hg]; exact hr) hp
    rw [hrun, this.1, this.2.1, hg, hc]
    exact ⟨rfl, rfl, this.2.2⟩

/-! ## C1 -/

/-- C1, counterexample: with `max_passes = 3`, one `RequestRender` and a renderer that always
succeeds, no number of trips of the loop makes three renderer calls or brings `pass` to 3. -/
theorem C1_counterexample :
    ¬ ∃ fuel : Nat,
      renderCalls
          (RenderThreadLoop okRender fuel (freshSession (sampleGlobals 1 0 false 0) 3)).1 = 3
        ∨ (RenderThreadLoop okRender fuel
            (freshSession (sampleGlobals 1 0 false 0) 3)).2.gRenderConfig.pass = 3 := by
  rintro ⟨fuel, h⟩
  obtain ⟨g1, h1, hq1, hr1, hp1, -⟩ :=
    freshSession_first_trip okRender (sampleGlobals 1 0 false 0) 3 (by decide) (fun _ _ _ => rfl)
  cases fuel with
  | zero => simp [RenderThreadLoop, renderCalls, freshSession, RequestRender, resetPass,
      setRefresh, RenderThreadInit, sampleGlobals] at h
  | succ k =>
    simp only [RenderThreadLoop, h1, RenderThreadLoop_idle okRender g1 hq1 (Or.inl hr1) k] at h
    simp [renderCalls, IterOutcome.isRender, hp1] at h

/-- C1, amended: for every `max_passes = n ≥ 1`, after one `RequestRender` and with a renderer
that always succeeds, any positive number of trips of the loop makes exactly one renderer call
(the first trip) and then only sleeps; `pass` goes 0 -> 1 and stays 1 with the refresh flag
cleared, so `pass` reaches `max_passes` exactly when `n = 1`. -/
theorem C1_one_pass_per_request {F : Type} (Render : RenderFn F) (g : Globals F) (n : Int)
    (hn : 1 ≤ n) (hok : ∀ b q c, (Render b q c).1 = true) (k : Nat) :
    (freshSession g n).gRenderConfig.pass = 0 ∧
    (RenderThreadLoop Render (k + 1) (freshSession g n)).1 =
      .rendered (freshSession g n).gRenderBuffer (freshSession g n).gCurrQuat
        (freshSession g n).gRenderConfig true :: List.replicate k .slept ∧
    renderCalls (RenderThreadLoop Render (k + 1) (freshSession g n)).1 = 1 ∧
    passTrace Render (k + 1) (freshSession g n) = List.replicate (k + 1) 1 ∧
    (RenderThreadLoop Render (k + 1) (freshSession g n)).2.gRenderConfig.pass = 1 ∧
    (RenderThreadLoop Render (k + 1) (freshSession g n)).2.gRenderRefresh = false ∧
    ((RenderThreadLoop Render (k + 1) (freshSession g n)).2.gRenderConfig.pass =
      (RenderThreadLoop Render (k + 1) (freshSession g n)).2.gRenderConfig.max_passes ↔
        n = 1) := by
  obtain ⟨g1, h1, hq1, hr1, hp1, hm1⟩ := freshSession_first_trip Render g n hn hok
  have hloop : RenderThreadLoop Render (k + 1) (freshSession g n) =
      (.rendered (freshSession g n).gRenderBuffer (freshSession g n).gCurrQuat
        (freshSession g n).gRenderConfig true :: List.replicate k .slept, g1) := by
    simp only [RenderThreadLoop, h1, RenderThreadLoop_idle Render g1 hq1 (Or.inl hr1) k]
  have htrace : passTrace Render (k + 1) (freshSession g n) = List.replicate (k + 1) 1 := by
    simp only [passTrace, h1, passTrace_idle Render g1 hq1 (Or.inl hr1) k, hp1,
      List.replicate_succ]
  refine ⟨(freshSession_fields g n).2.2.1, ?_, ?_, htrace, ?_, ?_, ?_⟩
  · rw [hloop]
  · rw [hloop]
    have := renderCalls_replicate_slept k (F := F)
    simp only [renderCalls] at this ⊢
    simp [IterOutcome.isRender, this]
  · rw [hloop]; exact hp1
  · rw [hloop]; exact hr1
  · rw [hloop]
    simp only [hp1, hm1]
    constructor <;> intro h <;> omega

/-- C1, amended, at `max_passes = 3` with the renderer `okRender`: one call and `pass` stuck
at 1 over five trips. -/
theorem C1_one_pass_per_request_witness :
    (1 : Int) ≤ 3 ∧ (∀ b q c, (okRender b q c).1 = true) ∧
    renderCalls (RenderThreadLoop okRender (4 + 1) (freshSession (sampleGlobals 1 0 false 0) 3)).1
      = 1 ∧
    passTrace okRender (4 + 1) (freshSession (sampleGlobals 1 0 false 0) 3) = [1, 1, 1, 1, 1] :=
  ⟨by decide, fun _ _ _ => rfl,
   (C1_one_pass_per_request okRender (sampleGlobals 1 0 false 0) 3 (by decide)
      (fun _ _ _ => rfl) 4).2.2.1,
   (C1_one_pass_per_request okRender (sampleGlobals 1 0 false 0) 3 (by decide)
      (fun _ _ _ => rfl) 4).2.2.2.1⟩

/-! ## C4 -/

/-- C4, counterexample: work owed (`pass = 0 < max_passes = 1`, refresh pending) and a
renderer that fails: `pass` is kept and the loop goes on, but the next trip sleeps instead of
calling the renderer again. -/
theorem C4_counterexample :
    ¬ ((RenderThreadIter failRender (sampleGlobals 1 0 true 0)).2.gRenderConfig.pass =
          (sampleGlobals 1 0 true 0).gRenderConfig.pass ∧
        (RenderThreadIter failRender (sampleGlobals 1 0 true 0)).1 ≠ .quit ∧
        (RenderThreadIter failRender
          (RenderThreadIter failRender (sampleGlobals 1 0 true 0)).2).1.isRender = true) := by
  decide

/-- C4, amended: when a pass is started (`gRenderQuit` false, refresh pending,
`0 ≤ pass < max_passes`) and the renderer returns failure, the trip keeps `pass` at its pre-call
value, does not end the loop and clears the refresh flag; with no new request every later trip
sleeps without calling the renderer, and the renderer is called again on the first trip after
the next `RequestRender()`. -/
theorem C4_failed_pass_waits_for_request {F : Type} (Render : RenderFn F) (g : Globals F)
    (hq : g.gRenderQuit = false) (hr : g.gRenderRefresh = true)
    (h0 : 0 ≤ g.gRenderConfig.pass) (hp : g.gRenderConfig.pass < g.gRenderConfig.max_passes)
    (hfail : (Render g.gRenderBuffer g.gCurrQuat g.gRenderConfig).1 = false) :
    (RenderThreadIter Render g).1 =
        .rendered g.gRenderBuffer g.gCurrQuat g.gRenderConfig false ∧
      (RenderThreadIter Render g).2.gRenderConfig.pass = g.gRenderConfig.pass ∧
      (RenderThreadIter Render g).1 ≠ .quit ∧
      (RenderThreadIter Render g).2.gRenderQuit = false ∧
      (RenderThreadIter Render g).2.gRenderRefresh = false ∧
      (∀ k, RenderThreadLoop Render k (RenderThreadIter Render g).2 =
        (List.replicate k .slept, (RenderThreadIter Render g).2)) ∧
      (RenderThreadIter Render (RequestRender (RenderThreadIter Render g).2)).1.isRender
        = true := by
  have hiter := RenderThreadIter_render Render g hq hr hp
  rw [hfail] at hiter
  simp only [Bool.false_eq_true, if_false] at hiter
  rw [hiter]
  refine ⟨rfl, rfl, by simp, hq, rfl, ?_, ?_⟩
  · intro k
    exact RenderThreadLoop_idle Render _ (by simpa using hq) (Or.inl rfl) k
  · have hlt : (0 : Int) < g.gRenderConfig.max_passes := lt_of_le_of_lt h0 hp
    rw [RenderThreadIter_render Render _ (by simpa [RequestRender, resetPass, setRefresh] using hq)
      (by simp [RequestRender, setRefresh])
      (by simpa [RequestRender, resetPass, setRefresh] using hlt)]
    rfl

/-- C4, amended, at `pass = 1` of `max_passes = 3` with the renderer `failRender`. -/
theorem C4_failed_pass_waits_for_request_witness :
    ((sampleGlobals 3 1 true 0).gRenderQuit = false ∧
      (sampleGlobals 3 1 true 0).gRenderRefresh = true ∧
      0 ≤ (sampleGlobals 3 1 true 0).gRenderConfig.pass ∧
      (sampleGlobals 3 1 true 0).gRenderConfig.pass <
        (sampleGlobals 3 1 true 0).gRenderConfig.max_passes ∧
      (failRender (sampleGlobals 3 1 true 0).gRenderBuffer (sampleGlobals 3 1 true 0).gCurrQuat
        (sampleGlobals 3 1 true 0).gRenderConfig).1 = false) ∧
    (RenderThreadIter failRender (sampleGlobals 3 1 true 0)).2.gRenderConfig.pass = 1 ∧
    (RenderThreadIter failRender (sampleGlobals 3 1 true 0)).2.gRenderRefresh = false ∧
    (RenderThreadIter failRender (RenderThreadIter failRender (sampleGlobals 3 1 true 0)).2).1
      = .slept :=
  ⟨⟨rfl, rfl, by decide, by decide, rfl⟩,
   (C4_failed_pass_waits_for_request failRender (sampleGlobals 3 1 true 0) rfl rfl
      (by decide) (by decide) rfl).2.1,
   (C4_failed_pass_waits_for_request failRender (sampleGlobals 3 1 true 0) rfl rfl
      (by decide) (by decide) rfl).2.2.2.2.1,
   by
    have h := (C4_failed_pass_waits_for_request failRender (sampleGlobals 3 1 true 0) rfl rfl
      (by decide) (by decide) rfl).2.2.2.2.2.1 1
    exact congrArg (fun r => r.1.headD .quit) h⟩

/-! ## C6 -/

/-- Whenever a trip of the loop calls the renderer, the buffer it hands over is `gRenderBuffer`
as the trip found it. -/
theorem RenderThreadIter_buffer_untouched {F : Type} (Render : RenderFn F) (g : Globals F)
    (b : RenderBuffer F) (q : Quat F) (c : RenderConfig F) (ret : Bool)
    (h : (RenderThreadIter Render g).1 = .rendered b q c ret) : b = g.gRenderBuffer := by
  unfold RenderThreadIter at h
  split at h
  · simp at h
  · split at h
    · simp at h
    · simp only [IterOutcome.rendered.injEq] at h
      exact h.1.symm

/-- C6, the code at a failing input: a session with `max_passes = 1` renders once (every sample
of the one-pixel buffer goes from 0 to 1) and idles; a pan (`T` held, left button down, cursor
moved from (0,0) to (10,20)) then requests a restart with `pass = 0`. On the next trip the
renderer is handed the buffer holding the 1s of the pass before the restart, not a zeroed
buffer. -/
theorem C6_buffer_not_cleared_on_restart :
    (HandleUserInput intExternals ⟨10, 20, 640, 480, true, true, false⟩
        (RenderThreadLoop okRender 3 (freshSession (sampleGlobals 1 0 false 0) 1)).2
        0 0).1.gRenderConfig.pass = 0 ∧
    (HandleUserInput intExternals ⟨10, 20, 640, 480, true, true, false⟩
        (RenderThreadLoop okRender 3 (freshSession (sampleGlobals 1 0 false 0) 1)).2
        0 0).1.gRenderRefresh = true ∧
    (RenderThreadIter okRender
        (HandleUserInput intExternals ⟨10, 20, 640, 480, true, true, false⟩
          (RenderThreadLoop okRender 3 (freshSession (sampleGlobals 1 0 false 0) 1)).2
          0 0).1).1.handedBuffer = some (constBuffer 1) ∧
    constBuffer 1 ≠ constBuffer 0 := by
  refine ⟨by decide, by decide, by decide, by decide⟩

/-! ## C7 -/

/-- C7: when `gRenderQuit` is set at the start of a trip of the loop, whatever the other globals
hold, the trip returns from `RenderThread` (outcome `quit`: neither a renderer call nor a
sleep) and leaves every global, `pass` and the buffer included, unchanged; the loop started in
such a state ends at once with no renderer call. In the interleaving model the render thread
standing at the quit check moves to `done` and stays there, with no call and no sleep added. -/
theorem C7_quit_has_priority {F : Type} (X : Externals F) (Render : RenderFn F) (g : Globals F)
    (hq : g.gRenderQuit = true) :
    RenderThreadIter Render g = (.quit, g) ∧
      (∀ fuel, RenderThreadLoop Render (fuel + 1) g = ([.quit], g)) ∧
      (∀ fuel, renderCalls (RenderThreadLoop Render (fuel + 1) g).1 = 0) ∧
      (∀ calls sleeps k, run X ⟨g, .quitCheck, calls, sleeps⟩ (workerOnly Render (k + 1)) =
        ⟨g, .done, calls, sleeps⟩) := by
  have hloop : ∀ fuel, RenderThreadLoop Render (fuel + 1) g = ([.quit], g) := by
    intro fuel
    simp [RenderThreadLoop, RenderThreadIter_quit Render g hq]
  refine ⟨RenderThreadIter_quit Render g hq, hloop, ?_, ?_⟩
  · intro fuel
    rw [hloop]
    rfl
  · intro calls sleeps k
    have hdone : ∀ j, run X ⟨g, .done, calls, sleeps⟩ (workerOnly Render j) =
        ⟨g, .done, calls, sleeps⟩ := by
      intro j
      induction j with
      | zero => rfl
      | succ j ih =>
        simpa [run, workerOnly, List.replicate_succ, step, workerStep] using ih
    have hfirst : run X ⟨g, .quitCheck, calls, sleeps⟩ (workerOnly Render (k + 1)) =
        run X ⟨g, .done, calls, sleeps⟩ (workerOnly Render k) := by
      simp [run, workerOnly, List.replicate_succ, step, workerStep, hq]
    rw [hfirst, hdone]

/-- C7 at a state with work pending (`pass = 0 < max_passes = 3`, refresh set) and the quit
flag set. -/
theorem C7_quit_has_priority_witness :
    ({ sampleGlobals 3 0 true 0 with gRenderQuit := true } : Globals Int).gRenderQuit = true ∧
    RenderThreadIter okRender { sampleGlobals 3 0 true 0 with gRenderQuit := true } =
      (.quit, { sampleGlobals 3 0 true 0 with gRenderQuit := true }) :=
  ⟨rfl, (C7_quit_has_priority intExternals okRender
    { sampleGlobals 3 0 true 0 with gRenderQuit := true } rfl).1⟩

/-! ## C8 -/

/-- C8: with `gRenderQuit` false, no refresh pending and `pass ≥ max_passes`, one trip of the
loop sleeps, calls no renderer and returns the globals (pass, max_passes, the flags, the
camera, the buffer) exactly as they were; hence any number of trips leaves the state identical
and makes no renderer call. The same holds step by step in the interleaving model while the
render thread runs alone. -/
theorem C8_idle_is_fixed_point {F : Type} (Render : RenderFn F) (g : Globals F)
    (hq : g.gRenderQuit = false) (hr : g.gRenderRefresh = false)
    (hp : g.gRenderConfig.max_passes ≤ g.gRenderConfig.pass) :
    RenderThreadIter Render g = (.slept, g) ∧
      (∀ k, RenderThreadLoop Render k g = (List.replicate k .slept, g)) ∧
      (∀ k, renderCalls (RenderThreadLoop Render k g).1 = 0) ∧
      (∀ k, (RenderThreadLoop Render k g).2 = g) ∧
      (∀ (X : Externals F) (calls : List (RenderCall F)) (sleeps k : Nat),
        (run X ⟨g, .quitCheck, calls, sleeps⟩ (workerOnly Render k)).g = g ∧
        (run X ⟨g, .quitCheck, calls, sleeps⟩ (workerOnly Render k)).calls = calls) := by
  have hloop := RenderThreadLoop_idle Render g hq (Or.inr hp)
  refine ⟨RenderThreadIter_idle Render g hq (Or.inl hr), hloop, ?_, ?_, ?_⟩
  · intro k
    rw [hloop]
    exact renderCalls_replicate_slept k
  · intro k
    rw [hloop]
  · intro X calls sleeps k
    obtain ⟨hg, hc, -⟩ := run_workerOnly_polling X Render k ⟨g, .quitCheck, calls, sleeps⟩
      hq hr rfl
    exact ⟨hg, hc⟩

/-- C8 at `pass = max_passes = 3`, no refresh pending, over five trips. -/
theorem C8_idle_is_fixed_point_witness :
    ((sampleGlobals 3 3 false 7).gRenderQuit = false ∧
      (sampleGlobals 3 3 false 7).gRenderRefresh = false ∧
      (sampleGlobals 3 3 false 7).gRenderConfig.max_passes ≤
        (sampleGlobals 3 3 false 7).gRenderConfig.pass) ∧
    (RenderThreadLoop okRender 5 (sampleGlobals 3 3 false 7)).2 = sampleGlobals 3 3 false 7 :=
  ⟨⟨rfl, rfl, by decide⟩,
   (C8_idle_is_fixed_point okRender (sampleGlobals 3 3 false 7) rfl rfl (by decide)).2.2.2.1 5⟩

/-! ## C5 -/

theorem RequestRender_fields {F : Type} (g : Globals F) :
    (RequestRender g).gRenderConfig.pass = 0 ∧ (RequestRender g).gRenderRefresh = true ∧
      (RequestRender g).gRenderConfig.max_passes = g.gRenderConfig.max_passes ∧
      (RequestRender g).gRenderConfig.width = g.gRenderConfig.width ∧
      (RequestRender g).gRenderConfig.height = g.gRenderConfig.height := by
  simp [RequestRender, resetPass, setRefresh]

/-- Running the statements of `HandleUserInput` in program order gives the globals that
`HandleUserInput` returns. -/
theorem HandleUserInputStmts_exec {F : Type} (X : Externals F) (inp : UserInput F)
    (g : Globals F) (px py : F) :
    execStmts X g (HandleUserInputStmts X inp px py) = (HandleUserInput X inp g px py).1 := by
  unfold HandleUserInputStmts HandleUserInput
  by_cases hm : mouseUnmoved X inp px py = true
  · simp [hm, execStmts]
  · cases hd : inp.mouseDown <;> cases ht : inp.keyT <;> cases hz : inp.keyZ <;>
      simp [hm, hd, ht, hz, execStmts, CtlStmt.exec, RequestRenderStmts, RequestRender]

/-- Running the statements of the space-key block in program order gives `ResetView`. -/
theorem ResetViewStmts_exec {F : Type} (X : Externals F) (g : Globals F) :
    execStmts X g (ResetViewStmts X) = ResetView X g := by
  simp [ResetViewStmts, ResetView, execStmts, CtlStmt.exec, RequestRenderStmts, RequestRender]

theorem CtlStmt.exec_pass {F : Type} (X : Externals F) (g : Globals F) (st : CtlStmt F) :
    (st.exec X g).gRenderConfig.max_passes = g.gRenderConfig.max_passes ∧
      ((st.exec X g).gRenderConfig.pass = g.gRenderConfig.pass ∨
        (st.exec X g).gRenderConfig.pass = 0) := by
  cases st <;> simp [CtlStmt.exec, resetPass, setRefresh]

theorem passInvariant_launch {F : Type} (g : Globals F) (n : Int) (hn : 1 ≤ n)
    (hmax : g.gRenderConfig.max_passes = n) (hpass : g.gRenderConfig.pass = 0) :
    passInvariant n (launch g) := by
  refine ⟨by simpa [launch] using hmax, ?_, ?_, ?_⟩
  · simp [launch, hpass]
  · simp only [launch, hpass]; omega
  · simp [launch, WorkerPc.owesIncrement]

theorem passInvariant_step {F : Type} (X : Externals F) (n : Int) (hn : 1 ≤ n)
    (hint : n ≤ 2147483647) (s : MState F) (e : Event F) (h : passInvariant n s) :
    passInvariant n (step X s e) := by
  obtain ⟨hm, h0, h1, h2⟩ := h
  cases e with
  | ui st =>
    obtain ⟨hmax, hp | hp⟩ := CtlStmt.exec_pass X s.g st
    · refine ⟨by simpa [step, hmax] using hm, ?_, ?_, ?_⟩
      · simpa [step, hp] using h0
      · simpa [step, hp] using h1
      · simpa [step, hp] using h2
    · refine ⟨by simpa [step, hmax] using hm, ?_, ?_, ?_⟩
      · simp [step, hp]
      · simp only [step, hp]; omega
      · intro _; simp only [step, hp]; omega
  | worker Render =>
    cases hpc : s.pc with
    | init =>
      refine ⟨by simpa [step, workerStep, hpc, resetPass] using hm, ?_, ?_, ?_⟩
      · simp [step, workerStep, hpc, resetPass]
      · simp only [step, workerStep, hpc, resetPass]; omega
      · simp [step, workerStep, hpc, WorkerPc.owesIncrement]
    | quitCheck =>
      by_cases hq : s.g.gRenderQuit = true <;>
        simp [passInvariant, step, workerStep, hpc, hq, WorkerPc.owesIncrement, hm, h0, h1]
    | refreshCheck =>
      by_cases hr : s.g.gRenderRefresh = true <;>
        simp [passInvariant, step, workerStep, hpc, hr, WorkerPc.owesIncrement, hm, h0, h1]
    | passCheck =>
      by_cases hp : n ≤ s.g.gRenderConfig.pass
      · simp [passInvariant, step, workerStep, hpc, hp, WorkerPc.owesIncrement, hm, h0, h1]
      · have hlt : s.g.gRenderConfig.pass < n := by omega
        simp [passInvariant, step, workerStep, hpc, hp, WorkerPc.owesIncrement, hm, h0, h1, hlt]
    | sleep =>
      simp [passInvariant, step, workerStep, hpc, WorkerPc.owesIncrement, hm, h0, h1]
    | initialPass =>
      have hlt := h2 (by simp [hpc, WorkerPc.owesIncrement])
      simp [passInvariant, step, workerStep, hpc, WorkerPc.owesIncrement, hm, h0, h1, hlt]
    | render =>
      have hlt := h2 (by simp [hpc, WorkerPc.owesIncrement])
      simp [passInvariant, step, workerStep, hpc, WorkerPc.owesIncrement, hm, h0, h1, hlt]
    | incr ret =>
      have hlt := h2 (by simp [hpc, WorkerPc.owesIncrement])
      cases ret with
      | false =>
        simp [passInvariant, step, workerStep, hpc, WorkerPc.owesIncrement, hm, h0, h1]
      | true =>
        have hw : wrapInt32 (s.g.gRenderConfig.pass + 1) = s.g.gRenderConfig.pass + 1 :=
          wrapInt32_of_range _ (by omega) (by omega)
        refine ⟨by simpa [step, workerStep, hpc] using hm, ?_, ?_, ?_⟩
        · simp only [step, workerStep, hpc, if_true, hw]; omega
        · simp only [step, workerStep, hpc, if_true, hw]; omega
        · simp [step, workerStep, hpc, WorkerPc.owesIncrement]
    | clear =>
      simp [passInvariant, step, workerStep, hpc, WorkerPc.owesIncrement, hm, h0, h1]
    | done =>
      refine ⟨by simpa [step, workerStep, hpc] using hm, ?_, ?_, ?_⟩
      · simpa [step, workerStep, hpc] using h0
      · simpa [step, workerStep, hpc] using h1
      · simpa [step, workerStep, hpc] using h2

theorem passInvariant_run {F : Type} (X : Externals F) (n : Int) (hn : 1 ≤ n)
    (hint : n ≤ 2147483647) (es : List (Event F)) :
    ∀ s : MState F, passInvariant n s → passInvariant n (run X s es) := by
  induction es with
  | nil => intro s h; exact h
  | cons e es ih =>
    intro s h
    exact ih (step X s e) (passInvariant_step X n hn hint s e h)

/-- C3: start a session with a valid configuration (`1 ≤ max_passes`, an `int`) and `pass`
zero-initialised; after any schedule of atomic steps of the render thread (the renderer
succeeding or failing arbitrarily at each call) and statements of the UI thread (the two
statements of `RequestRender` among them, placed anywhere, also between the render thread's
unguarded test of `pass` and its `pass++`), `0 ≤ pass ≤ max_passes` holds and `max_passes` is
unchanged. -/
theorem C3_pass_within_bounds {F : Type} (X : Externals F) (g : Globals F)
    (hvalid : 1 ≤ g.gRenderConfig.max_passes) (hint : g.gRenderConfig.max_passes ≤ 2147483647)
    (hpass : g.gRenderConfig.pass = 0) (es : List (Event F)) :
    0 ≤ (run X (launch g) es).g.gRenderConfig.pass ∧
      (run X (launch g) es).g.gRenderConfig.pass ≤
        (run X (launch g) es).g.gRenderConfig.max_passes ∧
      (run X (launch g) es).g.gRenderConfig.max_passes = g.gRenderConfig.max_passes := by
  have h := passInvariant_run X g.gRenderConfig.max_passes hvalid hint es (launch g)
    (passInvariant_launch g _ hvalid rfl hpass)
  obtain ⟨hm, h0, h1, -⟩ := h
  exact ⟨h0, by rw [hm]; exact h1, hm⟩

/-- C3 at `max_passes = 1` and the schedule `lostRestartSchedule`, in which a `RequestRender`
lands between the test of `pass` and `pass++`. -/
theorem C3_pass_within_bounds_witness :
    (1 ≤ (sampleGlobals 1 0 false 0).gRenderConfig.max_passes ∧
      (sampleGlobals 1 0 false 0).gRenderConfig.max_passes ≤ 2147483647 ∧
      (sampleGlobals 1 0 false 0).gRenderConfig.pass = 0) ∧
    0 ≤ (run intExternals (launch (sampleGlobals 1 0 false 0))
          lostRestartSchedule).g.gRenderConfig.pass ∧
    (run intExternals (launch (sampleGlobals 1 0 false 0))
          lostRestartSchedule).g.gRenderConfig.pass ≤
        (run intExternals (launch (sampleGlobals 1 0 false 0))
          lostRestartSchedule).g.gRenderConfig.max_passes :=
  ⟨⟨by decide, by decide, rfl⟩,
   (C3_pass_within_bounds intExternals (sampleGlobals 1 0 false 0) (by decide) (by decide) rfl
      lostRestartSchedule).1,
   (C3_pass_within_bounds intExternals (sampleGlobals 1 0 false 0) (by decide) (by decide) rfl
      lostRestartSchedule).2.1⟩

/-! ## C2 -/

/-- C2, the code at a failing input (`max_passes = 1`, schedule `lostRestartSchedule`, in which
the UI thread makes two calls of `RequestRender` and nothing else): when the second
`RequestRender()` lands after the pending-work test and before the completion of the pass in
flight, the restart is pending with `pass = 0` just before the completion, and the completion
increments `pass` to 1 and clears `gRenderRefresh`. The render thread then polls forever:
whatever the renderer would do, no further step of the render thread calls it, and `pass`
stays 1 although the only pass computed was started before the last restart. -/
theorem C2_restart_lost_in_flight :
    uiProgram lostRestartSchedule = RequestRenderStmts Int ++ RequestRenderStmts Int ∧
    ((run intExternals (launch (sampleGlobals 1 0 false 0)) lostRestartInFlight).g.gRenderRefresh
        = true ∧
      (run intExternals (launch (sampleGlobals 1 0 false 0))
        lostRestartInFlight).g.gRenderConfig.pass = 0 ∧
      (run intExternals (launch (sampleGlobals 1 0 false 0)) lostRestartInFlight).pc
        = .incr true) ∧
    ((run intExternals (launch (sampleGlobals 1 0 false 0)) lostRestartSchedule).g.gRenderRefresh
        = false ∧
      (run intExternals (launch (sampleGlobals 1 0 false 0))
        lostRestartSchedule).g.gRenderConfig.pass = 1 ∧
      (run intExternals (launch (sampleGlobals 1 0 false 0)) lostRestartSchedule).pc
        = .quitCheck ∧
      (run intExternals (launch (sampleGlobals 1 0 false 0)) lostRestartSchedule).calls.length
        = 1) ∧
    (∀ (Render : RenderFn Int) (k : Nat),
      (run intExternals (run intExternals (launch (sampleGlobals 1 0 false 0))
          lostRestartSchedule) (workerOnly Render k)).calls.length = 1 ∧
      (run intExternals (run intExternals (launch (sampleGlobals 1 0 false 0))
          lostRestartSchedule) (workerOnly Render k)).g.gRenderConfig.pass = 1 ∧
      (run intExternals (run intExternals (launch (sampleGlobals 1 0 false 0))
          lostRestartSchedule) (workerOnly Render k)).g.gRenderRefresh = false) := by
  refine ⟨by decide, by decide, by decide, ?_⟩
  intro Render k
  obtain ⟨hg, hc, -⟩ := run_workerOnly_polling intExternals Render k
    (run intExternals (launch (sampleGlobals 1 0 false 0)) lostRestartSchedule)
    (by decide) (by decide) (by decide)
  rw [hg, hc]
  decide

/-! ## C9 -/

/-- C9, the code at a failing input (`max_passes = 1`, schedule `tornCameraSchedule`): the UI
thread executes, in program order, the first `RequestRender()` and the handling of two pans,
the second starting where the first left the cursor. Handled alone, the first pan leaves
`eye = (-45, -95, 25)` and the second `eye = (-145, -295, 25)`. The camera writes of
`HandleUserInput` are statements of their own outside the guarded block of `RequestRender`,
and the renderer is called outside any guarded block on the live globals, so in this schedule
the one renderer call is handed `eye = (-145, -95, 25)`: `eye[0]` written by the second pan,
`eye[1]` by the first. -/
theorem C9_renderer_sees_torn_camera :
    uiProgram tornCameraSchedule =
        RequestRenderStmts Int ++ HandleUserInputStmts intExternals panA 0 0 ++
          HandleUserInputStmts intExternals panB 10 20 ∧
    (HandleUserInput intExternals panA (sampleGlobals 1 0 false 0) 0 0).2 = (10, 20) ∧
    (HandleUserInput intExternals panA (sampleGlobals 1 0 false 0) 0 0).1.gRenderConfig.eye
        = ⟨-45, -95, 25⟩ ∧
    (HandleUserInput intExternals panB
        (HandleUserInput intExternals panA (sampleGlobals 1 0 false 0) 0 0).1
        10 20).1.gRenderConfig.eye = ⟨-145, -295, 25⟩ ∧
    (run intExternals (launch (sampleGlobals 1 0 false 0)) tornCameraSchedule).calls.map
        (fun c => c.config.eye) = [⟨-145, -95, 25⟩] ∧
    (run intExternals (launch (sampleGlobals 1 0 false 0))
        tornCameraSchedule).g.gRenderConfig.eye = ⟨-145, -295, 25⟩ := by
  decide

/-! ## C10 -/

theorem loadUvKpt_acc (stofInt : List Char → Option Int) (ts : List (List Char)) :
    ∀ acc : List Int, loadUvKpt stofInt ts acc =
      ((loadUvKpt stofInt ts []).1, acc ++ (loadUvKpt stofInt ts []).2) := by
  induction ts with
  | nil => intro acc; simp [loadUvKpt]
  | cons t ts ih =>
    intro acc
    cases h : stofInt t with
    | none => simp [loadUvKpt, h]
    | some v =>
      simp only [loadUvKpt, h]
      rw [ih (acc ++ [v]), ih ([] ++ [v])]
      simp

set_option maxRecDepth 100000 in
/-- C10, the code at a failing input: with the directory `sampleFiles` the first
`LoadFaceData` on an empty `FaceData` returns true with 2 * 68 landmark values; the second call
on the same object and the same files returns false, and `uv_kpt_indices` then holds 4 * 68
values, because the function clears `face_indices` and `triangles` but not
`uv_kpt_indices`. -/
theorem C10_reload_fails :
    (LoadFaceData sampleStofInt sampleFiles "data".toList FaceData.empty).1 = .returned true ∧
    (LoadFaceData sampleStofInt sampleFiles "data".toList
        FaceData.empty).2.uv_kpt_indices.length = 2 * 68 ∧
    (LoadFaceData sampleStofInt sampleFiles "data".toList
        (LoadFaceData sampleStofInt sampleFiles "data".toList FaceData.empty).2).1
      = .returned false ∧
    (LoadFaceData sampleStofInt sampleFiles "data".toList
        (LoadFaceData sampleStofInt sampleFiles "data".toList
          FaceData.empty).2).2.uv_kpt_indices.length = 4 * 68 := by
  decide

/-- Whenever a first `LoadFaceData` on an empty `FaceData` returns true, a second call on the
same object with the same files returns false: `face_indices` and `triangles` are rebuilt, and
`uv_kpt_indices` holds its 2 * 68 values twice. -/
theorem LoadFaceData_reload (stofInt : List Char → Option Int)
    (fs : List Char → Option (List Char)) (datapath : List Char) (fd1 : FaceData)
    (h : LoadFaceData stofInt fs datapath FaceData.empty = (.returned true, fd1)) :
    LoadFaceData stofInt fs datapath fd1 =
        (.returned false,
          { fd1 with uv_kpt_indices := fd1.uv_kpt_indices ++ fd1.uv_kpt_indices }) ∧
      fd1.uv_kpt_indices.length = 2 * 68 := by
  unfold LoadFaceData at h ⊢
  generalize JoinPath datapath "face_ind.txt".toList = p1 at h ⊢
  generalize JoinPath datapath "triangles.txt".toList = p2 at h ⊢
  generalize JoinPath datapath "uv_kpt_ind.txt".toList = p3 at h ⊢
  simp only [FaceData.empty] at h
  cases h1 : fs p1 with
  | none => simp [h1] at h
  | some c1 =>
    simp only [h1] at h ⊢
    rcases h2 : loadFaceIndices stofInt (getlines c1) [] with ⟨b2, fi⟩
    cases b2 with
    | false => simp [h2] at h
    | true =>
      simp only [h2] at h ⊢
      cases h3 : fs p2 with
      | none => simp [h3] at h
      | some c2 =>
        simp only [h3] at h ⊢
        rcases h4 : loadTriangles stofInt (getlines c2) [] with ⟨b4, tr⟩
        cases b4 with
        | false => simp [h4] at h
        | true =>
          simp only [h4] at h ⊢
          cases h5 : fs p3 with
          | none => simp [h5] at h
          | some c3 =>
            simp only [h5] at h ⊢
            rcases h6 : loadUvKpt stofInt (tokens c3) [] with ⟨b6, uv⟩
            cases b6 with
            | false => simp [h6] at h
            | true =>
              simp only [h6] at h
              by_cases hlen : uv.length = 2 * 68
              · simp [hlen] at h
                subst h
                simp only
                rw [loadUvKpt_acc stofInt (tokens c3) uv, h6]
                simp [hlen]
              · simp [hlen] at h

end prnet
